import Mathlib

/-!
# Shallow embedding of the LangGraph tutorial notebooks

This file embeds the Python code of the two tutorial notebooks
(`part_2_enhancing_the_chatbot_with_tools.ipynb` and
`part_5_customizing_state.ipynb`) as executable Lean definitions and proves
the specification's claims about them.

Conventions of the embedding:
* External collaborators (the hosted chat model, the web-search tool, the
  graph executor, `interrupt`) are uninterpreted: they appear as explicit
  function parameters.
* Python exceptions become `Except PyError`.
* Python dicts become association lists (`List (String × _)`), first key wins
  on lookup, overwrite-in-place on insert, mirroring dict semantics for the
  unique-key dicts the notebooks build.
* Machine-level details (JSON escaping, `repr` of objects inside f-strings)
  are modelled by concrete executable serializers; the claims only depend on
  these functions abstractly.
-/

set_option autoImplicit false

/-- A single quote character, used when modelling Python `repr` output. -/
def sglQuote : String := String.singleton (Char.ofNat 39)

/-- A structured tool-call request carried by an assistant message:
`{"name": ..., "args": ..., "id": ...}`.  The argument payload is
abstracted to an opaque string. -/
structure ToolCall where
  name : String
  args : String
  id : String
deriving DecidableEq, Repr

/-- A chat message.  `tool_calls = none` models a message object *without* a
`tool_calls` attribute (`hasattr` fails); `some l` models an attribute whose
value is the list `l`. -/
structure Message where
  role : String
  content : String
  tool_calls : Option (List ToolCall)
  name : Option String
  tool_call_id : Option String
deriving DecidableEq, Repr

/-- `langchain_core.messages.ToolMessage(content, name=..., tool_call_id=...)`:
a tool-result message.  `name` is optional (part 5 omits it). -/
def ToolMessage (content : String) (tool_call_id : String) (name : Option String) : Message :=
  { role := "tool", content := content, tool_calls := none,
    name := name, tool_call_id := some tool_call_id }

/-- Python exceptions that the embedded code can raise. -/
inductive PyError where
  | valueError (msg : String)
  | keyError (key : String)
  | attributeError (attr : String)
  | indexError
  | assertionError
deriving DecidableEq, Repr

/-- A JSON value, the result type of a tool invocation (the Python tools
return JSON-serializable objects which `json.dumps` then renders). -/
inductive Json where
  | null
  | bool (b : Bool)
  | num (n : Int)
  | str (s : String)
  | arr (elems : List Json)
  | obj (fields : List (String × Json))
deriving Repr

/-- Escape a string for JSON output (quote and backslash, as `json.dumps`
does for the characters the notebooks can produce). -/
def jsonEscape (s : String) : String :=
  s.foldl (fun acc c =>
    if c = Char.ofNat 34 then acc ++ "\\" ++ String.singleton (Char.ofNat 34)
    else if c = Char.ofNat 92 then acc ++ "\\\\"
    else acc ++ String.singleton c) ""

mutual

/-- `json.dumps` with the default separators. -/
def Json.dumps : Json → String
  | .null => "null"
  | .bool true => "true"
  | .bool false => "false"
  | .num n => toString n
  | .str s => String.singleton (Char.ofNat 34) ++ jsonEscape s ++ String.singleton (Char.ofNat 34)
  | .arr es => "[" ++ Json.dumpsElems es ++ "]"
  | .obj fs => "\x7b" ++ Json.dumpsFields fs ++ "\x7d"

/-- Comma-separated serialization of array elements. -/
def Json.dumpsElems : List Json → String
  | [] => ""
  | [e] => Json.dumps e
  | e :: rest => Json.dumps e ++ ", " ++ Json.dumpsElems rest

/-- Comma-separated serialization of object fields. -/
def Json.dumpsFields : List (String × Json) → String
  | [] => ""
  | [kv] => String.singleton (Char.ofNat 34) ++ jsonEscape kv.1 ++ String.singleton (Char.ofNat 34) ++ ": " ++ Json.dumps kv.2
  | kv :: rest => String.singleton (Char.ofNat 34) ++ jsonEscape kv.1 ++ String.singleton (Char.ofNat 34) ++ ": " ++ Json.dumps kv.2 ++ ", " ++ Json.dumpsFields rest

end

/-- A registered tool: a name plus its (pure, uninterpreted) `invoke`. -/
structure Tool where
  name : String
  invoke : String → Json

/-- A value stored in a state-update dict: either a scalar string channel or
the messages channel. -/
inductive StateVal where
  | str (s : String)
  | msgs (l : List Message)
deriving DecidableEq, Repr

/-- A Python dict used as a graph state or state update. -/
abbrev Dict : Type := List (String × StateVal)

/-- Dict lookup: first (unique) matching key. -/
def dictGet {α : Type} (d : List (String × α)) (k : String) : Option α :=
  match d with
  | [] => none
  | kv :: rest => if kv.1 = k then some kv.2 else dictGet rest k

/-- Dict assignment `d[k] = v`: overwrite in place, else append. -/
def dictSet {α : Type} (d : List (String × α)) (k : String) (v : α) : List (String × α) :=
  match d with
  | [] => [(k, v)]
  | kv :: rest => if kv.1 = k then (k, v) :: rest else kv :: dictSet rest k v

/-- Python `str.lower()` on the ASCII strings the notebooks compare,
character by character (executable, unlike the opaque runtime primitive). -/
def pyLower (s : String) : String := String.mk (s.data.map Char.toLower)

/-- Python `s.startswith(pre)`. -/
def pyStartsWith (s pre : String) : Bool := pre.data.isPrefixOf s.data

/-- The `langgraph.graph.END` sentinel label. -/
def END : String := "__end__"

namespace Part2

/-- The part-2 graph state: `class State(TypedDict): messages: Annotated[list, add_messages]`. -/
structure State where
  messages : List Message
deriving DecidableEq, Repr

/-- `def chatbot(state): return {"messages": [llm_with_tools.invoke(state["messages"])]}`.
The bound model is the uninterpreted parameter `llm_with_tools`. -/
def chatbot (llm_with_tools : List Message → Message) (state : State) : Dict :=
  [("messages", StateVal.msgs [llm_with_tools state.messages])]

/-- A minimal rendering of a state inside an f-string (Python `str(state)`);
only its exact text varies from CPython, the claims treat it abstractly. -/
def stateRepr (s : State) : String :=
  "\x7b" ++ sglQuote ++ "messages" ++ sglQuote ++ ": a list of " ++ toString s.messages.length ++ " messages\x7d"

/-- The argument of `route_tools`: Python inspects `isinstance(state, list)`,
so the function accepts either a bare message list or a `State` dict. -/
inductive RouteArg where
  | listArg (msgs : List Message)
  | stateArg (s : State)

/-- `route_tools`: route to `"tools"` if the last message has a nonempty
`tool_calls` attribute, else to `END`; raise on a message-less input.
`state[-1]` on an empty list is the builtin `IndexError`; the empty dict
branch is the notebook's own `ValueError`. -/
def route_tools (state : RouteArg) : Except PyError String := do
  let ai_message ← match state with
    | .listArg msgs =>
      match msgs.getLast? with
      | some m => Except.ok m
      | none => Except.error PyError.indexError
    | .stateArg s =>
      match s.messages.getLast? with
      | some m => Except.ok m
      | none => Except.error (PyError.valueError
          ("No messages found in input state to tool_edge: " ++ stateRepr s))
  match ai_message.tool_calls with
  | some tcs => if 0 < tcs.length then pure "tools" else pure END
  | none => pure END

/-- The input dict of `BasicToolNode.__call__`; `messages = none` models a
dict without a `"messages"` entry, so `inputs.get("messages", [])` is
`messages.getD []`. -/
structure ToolInputs where
  messages : Option (List Message)
deriving DecidableEq, Repr

/-- `self.tools_by_name = {tool.name: tool for tool in tools}`: a dict
comprehension, later duplicates overwriting earlier ones. -/
def dictOfTools (tools : List Tool) : List (String × Tool) :=
  tools.foldl (fun d t => dictSet d t.name t) []

/-- The hand-rolled tool-dispatch node of part 2. -/
structure BasicToolNode where
  tools_by_name : List (String × Tool)

/-- `BasicToolNode(tools=...)`. -/
def BasicToolNode.ofTools (tools : List Tool) : BasicToolNode :=
  { tools_by_name := dictOfTools tools }

/-- The `for tool_call in message.tool_calls` loop of `__call__`: invoke each
requested tool (`KeyError` on an unregistered name, as for a Python dict
subscript) and collect one correlated `ToolMessage` per call, in order. -/
def BasicToolNode.runTools (node : BasicToolNode) : List ToolCall → Except PyError (List Message)
  | [] => Except.ok []
  | tool_call :: rest =>
    match dictGet node.tools_by_name tool_call.name with
    | none => Except.error (PyError.keyError tool_call.name)
    | some t =>
      match node.runTools rest with
      | Except.ok outs =>
        Except.ok (ToolMessage (Json.dumps (t.invoke tool_call.args)) tool_call.id (some tool_call.name) :: outs)
      | Except.error e => Except.error e

/-- `BasicToolNode.__call__`: take the last input message (`messages[-1]`,
guarded by the notebook's own `ValueError` when the list is missing or
empty), run every requested tool call, and return `{"messages": outputs}`.
A last message without a `tool_calls` attribute is the builtin
`AttributeError`. -/
def BasicToolNode.call (node : BasicToolNode) (inputs : ToolInputs) : Except PyError Dict :=
  match (inputs.messages.getD []).getLast? with
  | none => Except.error (PyError.valueError "No message found in input")
  | some message =>
    match message.tool_calls with
    | none => Except.error (PyError.attributeError "tool_calls")
    | some tcs =>
      match node.runTools tcs with
      | Except.ok outputs => Except.ok [("messages", StateVal.msgs outputs)]
      | Except.error e => Except.error e

/-- The inner loops of `stream_graph_updates`: for each streamed event value
(given here directly as its `value["messages"]` list), print
`"Assistant: " + value["messages"][-1].content`; `[-1]` on an empty list is
the builtin `IndexError`. -/
def assistantPrints : List (List Message) → Except PyError (List String)
  | [] => Except.ok []
  | msgs :: rest =>
    match msgs.getLast? with
    | none => Except.error PyError.indexError
    | some m =>
      match assistantPrints rest with
      | Except.ok ps => Except.ok (("Assistant: " ++ m.content) :: ps)
      | Except.error e => Except.error e

/-- `stream_graph_updates(user_input)` over the uninterpreted compiled graph
`graph_stream`, which yields for each streamed event value the messages list
of that value. -/
def stream_graph_updates (graph_stream : String → List (List Message))
    (user_input : String) : Except PyError (List String) :=
  assistantPrints (graph_stream user_input)

/-- One iteration of the `while True` console loop.  `input_result` is the
outcome of `input("User: ")`.  The returned strings are the lines printed by
this iteration and the Bool records whether the loop `break`s.  The bare
`except:` catches any failure of the `try` body and falls back to the fixed
question, streams it and breaks; a failure inside the fallback itself
propagates (outer `.error`). -/
def loop_iteration (graph_stream : String → List (List Message))
    (input_result : Except PyError String) : Except PyError (List String × Bool) :=
  let body : Except PyError (List String × Bool) := do
    let user_input ← input_result
    if pyLower user_input ∈ ["quit", "exit", "q"] then
      pure (["Goodbye!"], true)
    else do
      let prints ← stream_graph_updates graph_stream user_input
      pure (prints, false)
  match body with
  | Except.ok r => Except.ok r
  | Except.error _ =>
    let user_input := "What do you know about LangGraph?"
    match stream_graph_updates graph_stream user_input with
    | Except.ok prints => Except.ok (("User: " ++ user_input) :: prints, true)
    | Except.error e => Except.error e

end Part2

namespace Part5

/-- The part-5 graph state: `messages` plus the two reviewed scalar fields. -/
structure State where
  messages : List Message
  name : String
  birthday : String
deriving DecidableEq, Repr

/-- The `Command(update=...)` object returned by `human_assistance`. -/
structure Command where
  update : Dict
deriving DecidableEq, Repr

/-- The resume payload handed back by `interrupt` (`Command(resume={...})`):
a string-valued dict. -/
abbrev HumanResponse : Type := List (String × String)

/-- Python `d.get(key, default)` on a string-valued dict. -/
def pyGet (d : HumanResponse) (key default : String) : String :=
  match dictGet d key with
  | some v => v
  | none => default

/-- Python `repr` of a string-valued dict, as interpolated by the f-string
`f"Made a correction: {human_response}"`. -/
def reprHumanResponse (d : HumanResponse) : String :=
  "\x7b" ++ String.intercalate ", "
    (d.map (fun kv => sglQuote ++ kv.1 ++ sglQuote ++ ": " ++ sglQuote ++ kv.2 ++ sglQuote)) ++ "\x7d"

/-- The `human_assistance` tool.  The framework's `interrupt` primitive
suspends the graph and returns the human's resume payload; it is modelled by
the explicit parameter `human_response`.  The injected `tool_call_id` is the
id of the tool call being answered. -/
def human_assistance (name birthday : String) (tool_call_id : String)
    (human_response : HumanResponse) : Command :=
  let correct := pyStartsWith (pyLower (pyGet human_response "correct" "")) "y"
  let verified_name := if correct then name else pyGet human_response "name" name
  let verified_birthday := if correct then birthday else pyGet human_response "birthday" birthday
  let response := if correct then "Correct"
    else "Made a correction: " ++ reprHumanResponse human_response
  let state_update : Dict :=
    [("name", StateVal.str verified_name),
     ("birthday", StateVal.str verified_birthday),
     ("messages", StateVal.msgs [ToolMessage response tool_call_id none])]
  { update := state_update }

/-- The part-5 `chatbot` node: invoke the bound model on the full history,
`assert len(message.tool_calls) <= 1` (an `AssertionError` when the reply
carries two or more tool calls), and return `{"messages": [message]}`.  A
reply without a `tool_calls` attribute would be the builtin
`AttributeError`. -/
def chatbot (llm_with_tools : List Message → Message) (state : State) : Except PyError Dict :=
  let message := llm_with_tools state.messages
  match message.tool_calls with
  | none => Except.error (PyError.attributeError "tool_calls")
  | some tcs =>
    if tcs.length ≤ 1 then Except.ok [("messages", StateVal.msgs [message])]
    else Except.error PyError.assertionError

end Part5

/-- Modelled from the spec: the external framework's `add_messages` reducer.
The spec describes the message-history field as "append-only,
order-preserving", so merging a node's returned messages appends them to the
existing history. -/
def add_messages (old new : List Message) : List Message := old ++ new

/-- Modelled from the spec: the external framework merges a node's update
dict into the shared state channel by channel — the `"messages"` channel
through the `add_messages` reducer, scalar channels by overwrite. -/
def applyUpdate (state : Dict) (update : Dict) : Dict :=
  update.foldl
    (fun st kv =>
      let merged :=
        if kv.1 = "messages" then
          match dictGet st kv.1, kv.2 with
          | some (StateVal.msgs old), StateVal.msgs new => StateVal.msgs (add_messages old new)
          | _, _ => kv.2
        else kv.2
      dictSet st kv.1 merged)
    state


/-- A concrete tool-call request used by the witnesses. -/
def tcW : ToolCall :=
  { name := "tavily_search_results_json", args := "langgraph release", id := "call_1" }

/-- A concrete assistant message that requests one tool call. -/
def aiMsgWithTool : Message :=
  { role := "assistant", content := "", tool_calls := some [tcW],
    name := none, tool_call_id := none }

/-- A concrete assistant message with an empty tool-call list. -/
def aiMsgNoTool : Message :=
  { role := "assistant", content := "hello", tool_calls := some [],
    name := none, tool_call_id := none }

/-- The correlation C2 requires between one requested tool call and the
`ToolMessage` produced for it: a tool-role message whose `name` is the call's
name, whose `tool_call_id` is the call's id, and whose content is the JSON
serialization of invoking the matching registered tool on the call's
arguments. -/
def toolResultMatches (tbn : List (String × Tool)) (tc : ToolCall) (out : Message) : Prop :=
  out.role = "tool" ∧ out.name = some tc.name ∧ out.tool_call_id = some tc.id ∧
    ∃ t, dictGet tbn tc.name = some t ∧ out.content = Json.dumps (t.invoke tc.args)

/-- A concrete registered tool used by the witnesses. -/
def toolW : Tool :=
  { name := "tavily_search_results_json", invoke := fun _ => Json.str "two results" }

/-- A concrete second tool-call request. -/
def tcW2 : ToolCall := { name := "human_assistance", args := "", id := "call_2" }

/-- A concrete assistant message that requests two tool calls. -/
def aiMsgTwoTools : Message :=
  { role := "assistant", content := "", tool_calls := some [tcW, tcW2],
    name := none, tool_call_id := none }

/-- Generic dict lemma: looking up the key just set returns the new value. -/
theorem dictGet_set_self {α : Type} (d : List (String × α)) (k : String) (v : α) :
    dictGet (dictSet d k v) k = some v := by
  induction d with
  | nil => simp [dictSet, dictGet]
  | cons kv rest ih =>
    by_cases hk : kv.1 = k
    · simp [dictSet, hk, dictGet]
    · simp [dictSet, hk, dictGet, ih]

/-- Generic dict lemma: setting one key leaves lookups of other keys alone. -/
theorem dictGet_set_other {α : Type} (d : List (String × α)) (k k' : String) (v : α)
    (hne : k ≠ k') : dictGet (dictSet d k v) k' = dictGet d k' := by
  induction d with
  | nil => simp [dictSet, dictGet, hne]
  | cons kv rest ih =>
    by_cases hk : kv.1 = k
    · simp [dictSet, hk, dictGet, hne]
    · simp [dictSet, hk, dictGet, ih]

/-- Merging an update dict touches no key outside the update's key set. -/
theorem applyUpdate_frame (u : Dict) : ∀ (s : Dict) (k : String),
    (∀ kv ∈ u, kv.1 ≠ k) → dictGet (applyUpdate s u) k = dictGet s k := by
  induction u with
  | nil => intro s k _; rfl
  | cons kv rest ih =>
    intro s k hk
    have hstep : applyUpdate s (kv :: rest) =
        applyUpdate (dictSet s kv.1
          (if kv.1 = "messages" then
            match dictGet s kv.1, kv.2 with
            | some (StateVal.msgs old), StateVal.msgs new => StateVal.msgs (add_messages old new)
            | _, _ => kv.2
          else kv.2)) rest := rfl
    rw [hstep, ih _ k (fun kv' hkv' => hk kv' (List.mem_cons_of_mem kv hkv')),
      dictGet_set_other _ _ _ _ (hk kv (List.mem_cons_self kv rest))]

/-- C1: on a graph state with a non-empty message history, `route_tools`
returns `"tools"` exactly when the last message has a `tool_calls` attribute
with at least one entry, and otherwise returns `END`; no other label is
possible. -/
theorem route_tools_labels (s : Part2.State) (m : Message)
    (h : s.messages.getLast? = some m) :
    (Part2.route_tools (Part2.RouteArg.stateArg s) = Except.ok "tools" ↔
      ∃ tcs, m.tool_calls = some tcs ∧ 0 < tcs.length)
    ∧ (Part2.route_tools (Part2.RouteArg.stateArg s) = Except.ok "tools" ∨
       Part2.route_tools (Part2.RouteArg.stateArg s) = Except.ok END) := by
  have hroute : Part2.route_tools (Part2.RouteArg.stateArg s) =
      (match m.tool_calls with
       | some tcs => if 0 < tcs.length then Except.ok "tools" else Except.ok END
       | none => Except.ok END) := by
    simp [Part2.route_tools, h, bind, Except.bind, pure, Except.pure]
  rw [hroute]
  cases htc : m.tool_calls with
  | none =>
    dsimp only
    refine ⟨⟨fun hco => absurd (Except.ok.inj hco) (by decide), ?_⟩, Or.inr rfl⟩
    rintro ⟨tcs, htcs, _⟩
    exact absurd htcs (by simp)
  | some tcs =>
    dsimp only
    by_cases hlen : 0 < tcs.length
    · rw [if_pos hlen]
      exact ⟨⟨fun _ => ⟨tcs, rfl, hlen⟩, fun _ => rfl⟩, Or.inl rfl⟩
    · rw [if_neg hlen]
      refine ⟨⟨fun hco => absurd (Except.ok.inj hco) (by decide), ?_⟩, Or.inr rfl⟩
      rintro ⟨tcs', htcs', hlen'⟩
      cases Option.some.inj htcs'
      exact absurd hlen' hlen


/-- Witness for C1 at a concrete non-empty state whose last message requests
a tool call: the router yields `"tools"`. -/
theorem route_tools_labels_witness :
    Part2.route_tools (Part2.RouteArg.stateArg ⟨[aiMsgWithTool]⟩) = Except.ok "tools" :=
  ((route_tools_labels ⟨[aiMsgWithTool]⟩ aiMsgWithTool rfl).1).mpr ⟨[tcW], rfl, by decide⟩

/-- Every error produced by the tool-running loop of `BasicToolNode.__call__`
is a `KeyError` from the `tools_by_name` dict subscript. -/
theorem runTools_error_keyError (node : Part2.BasicToolNode) :
    ∀ (tcs : List ToolCall) (e : PyError),
      node.runTools tcs = Except.error e → ∃ k, e = PyError.keyError k := by
  intro tcs
  induction tcs with
  | nil =>
    intro e h
    exact absurd h (by simp [Part2.BasicToolNode.runTools])
  | cons tc rest ih =>
    intro e h
    unfold Part2.BasicToolNode.runTools at h
    cases hg : dictGet node.tools_by_name tc.name with
    | none =>
      rw [hg] at h
      exact ⟨tc.name, (Except.error.inj h).symm⟩
    | some t =>
      rw [hg] at h
      cases hr : node.runTools rest with
      | ok outs =>
        rw [hr] at h
        exact absurd h (by simp)
      | error e2 =>
        rw [hr] at h
        obtain rfl := Except.error.inj h
        exact ih _ hr

/-- Helper shared by C3 and C4: the guard `ValueError` of
`BasicToolNode.__call__` characterised. -/
theorem call_guard_iff_aux (tools : List Tool) (inputs : Part2.ToolInputs) :
    (Part2.BasicToolNode.ofTools tools).call inputs =
        Except.error (PyError.valueError "No message found in input")
      ↔ inputs.messages.getD [] = [] := by
  constructor
  · intro h
    cases hl : (inputs.messages.getD []).getLast? with
    | none => exact List.getLast?_eq_none_iff.mp hl
    | some m =>
      exfalso
      unfold Part2.BasicToolNode.call at h
      rw [hl] at h
      dsimp only at h
      cases htc : m.tool_calls with
      | none =>
        rw [htc] at h
        exact absurd (Except.error.inj h) (by simp)
      | some tcs =>
        rw [htc] at h
        dsimp only at h
        cases hr : (Part2.BasicToolNode.ofTools tools).runTools tcs with
        | ok outputs =>
          rw [hr] at h
          exact absurd h (by simp)
        | error e =>
          rw [hr] at h
          obtain ⟨k, hk⟩ := runTools_error_keyError _ _ _ hr
          cases Except.error.inj h
          simp at hk
  · intro h
    unfold Part2.BasicToolNode.call
    rw [h]
    rfl

/-- C4: the `"No message found in input"` `ValueError` is raised exactly when
the input dict lacks a `"messages"` entry or that entry is empty; in the error
case the call produces only the exception, no update dict and no tool result. -/
theorem tool_node_guard_iff (tools : List Tool) (inputs : Part2.ToolInputs) :
    (Part2.BasicToolNode.ofTools tools).call inputs =
        Except.error (PyError.valueError "No message found in input")
      ↔ inputs.messages.getD [] = [] :=
  call_guard_iff_aux tools inputs

/-- Witness for C4 at the empty input dict: the guard fires. -/
theorem tool_node_guard_iff_witness :
    (Part2.BasicToolNode.ofTools []).call ⟨none⟩ =
      Except.error (PyError.valueError "No message found in input") :=
  (tool_node_guard_iff [] ⟨none⟩).mpr rfl


/-- When every requested tool is registered, the tool-running loop succeeds
and produces exactly one correlated `ToolMessage` per request, in order. -/
theorem runTools_ok_of_registered (node : Part2.BasicToolNode) :
    ∀ (tcs : List ToolCall),
      (∀ tc ∈ tcs, (dictGet node.tools_by_name tc.name).isSome) →
      ∃ outs, node.runTools tcs = Except.ok outs ∧
        List.Forall₂ (toolResultMatches node.tools_by_name) tcs outs := by
  intro tcs
  induction tcs with
  | nil => exact fun _ => ⟨[], rfl, List.Forall₂.nil⟩
  | cons tc rest ih =>
    intro hreg
    obtain ⟨outs, houts, hf⟩ := ih (fun tc2 h2 => hreg tc2 (List.mem_cons_of_mem _ h2))
    have hsome := hreg tc (List.mem_cons_self tc rest)
    cases hg : dictGet node.tools_by_name tc.name with
    | none => rw [hg] at hsome; simp at hsome
    | some t =>
      refine ⟨ToolMessage (Json.dumps (t.invoke tc.args)) tc.id (some tc.name) :: outs, ?_, ?_⟩
      · unfold Part2.BasicToolNode.runTools
        rw [hg]
        dsimp only
        rw [houts]
      · exact List.Forall₂.cons ⟨rfl, rfl, rfl, t, hg, rfl⟩ hf

/-- C2: on an input whose last message requests tool calls that are all
registered, `BasicToolNode.__call__` returns `{"messages": outputs}` with
exactly one correlated `ToolMessage` per request, in request order. -/
theorem tool_node_outputs (tools : List Tool) (inputs : Part2.ToolInputs)
    (message : Message) (tcs : List ToolCall)
    (hlast : (inputs.messages.getD []).getLast? = some message)
    (htc : message.tool_calls = some tcs)
    (hreg : ∀ tc ∈ tcs, (dictGet (Part2.dictOfTools tools) tc.name).isSome) :
    ∃ outputs, (Part2.BasicToolNode.ofTools tools).call inputs =
        Except.ok [("messages", StateVal.msgs outputs)] ∧
      List.Forall₂ (toolResultMatches (Part2.dictOfTools tools)) tcs outputs := by
  obtain ⟨outs, hrun, hf⟩ := runTools_ok_of_registered (Part2.BasicToolNode.ofTools tools) tcs hreg
  refine ⟨outs, ?_, hf⟩
  unfold Part2.BasicToolNode.call
  rw [hlast]
  dsimp only
  rw [htc]
  dsimp only
  rw [hrun]


/-- Witness for C2 at a one-call input against the concrete tool registry. -/
theorem tool_node_outputs_witness :
    ∃ outputs, (Part2.BasicToolNode.ofTools [toolW]).call ⟨some [aiMsgWithTool]⟩ =
        Except.ok [("messages", StateVal.msgs outputs)] ∧
      List.Forall₂ (toolResultMatches (Part2.dictOfTools [toolW])) [tcW] outputs :=
  tool_node_outputs [toolW] ⟨some [aiMsgWithTool]⟩ aiMsgWithTool [tcW] rfl rfl
    (by
      intro tc htc
      rw [List.mem_singleton] at htc
      subst htc
      rfl)

/-- Helper shared by C3 and C9: the part-5 `chatbot` assertion characterised —
an `AssertionError` exactly when the model reply carries two or more tool
calls. -/
theorem chatbot5_assert_iff_aux (llm : List Message → Message) (s : Part5.State) :
    Part5.chatbot llm s = Except.error PyError.assertionError ↔
      ∃ tcs, (llm s.messages).tool_calls = some tcs ∧ 2 ≤ tcs.length := by
  unfold Part5.chatbot
  dsimp only
  cases htc : (llm s.messages).tool_calls with
  | none =>
    dsimp only
    constructor
    · intro h
      exact absurd (Except.error.inj h) (by simp)
    · rintro ⟨tcs, htcs, _⟩
      exact absurd htcs (by simp)
  | some tcs =>
    dsimp only
    by_cases hlen : tcs.length ≤ 1
    · rw [if_pos hlen]
      constructor
      · intro h
        exact absurd h (by simp)
      · rintro ⟨tcs2, htcs2, hlen2⟩
        cases Option.some.inj htcs2
        omega
    · rw [if_neg hlen]
      exact ⟨fun _ => ⟨tcs, rfl, by omega⟩, fun _ => rfl⟩

/-- C9: the part-5 `chatbot` asserts at most one tool call in the model
reply: two or more raise `AssertionError` before any update is returned,
zero or one let the single-reply update through. -/
theorem chatbot_assert_single_tool_call (llm : List Message → Message)
    (s : Part5.State) (tcs : List ToolCall)
    (h : (llm s.messages).tool_calls = some tcs) :
    (2 ≤ tcs.length → Part5.chatbot llm s = Except.error PyError.assertionError)
    ∧ (tcs.length ≤ 1 →
        Part5.chatbot llm s = Except.ok [("messages", StateVal.msgs [llm s.messages])]) := by
  constructor
  · intro hlen
    exact (chatbot5_assert_iff_aux llm s).mpr ⟨tcs, h, hlen⟩
  · intro hlen
    unfold Part5.chatbot
    dsimp only
    rw [h]
    dsimp only
    rw [if_pos hlen]


/-- Witness for C9: a reply with two tool calls trips the assertion. -/
theorem chatbot_assert_single_tool_call_witness :
    Part5.chatbot (fun _ => aiMsgTwoTools) ⟨[], "", ""⟩ = Except.error PyError.assertionError :=
  (chatbot_assert_single_tool_call (fun _ => aiMsgTwoTools) ⟨[], "", ""⟩ [tcW, tcW2] rfl).1
    (by decide)

/-- Counterexample to C6 as frozen: at a concrete state where the model
reply carries two tool calls, part 5's `chatbot` raises `AssertionError`
instead of returning the single-reply update — so "for every state ...
returns an update" is false of the part-5 node the claim cites. -/
theorem chatbot5_assert_blocks_update_counterexample :
    Part5.chatbot (fun _ => aiMsgTwoTools) ⟨[], "LangGraph", "Jan 17, 2024"⟩ =
        Except.error PyError.assertionError
      ∧ Part5.chatbot (fun _ => aiMsgTwoTools) ⟨[], "LangGraph", "Jan 17, 2024"⟩ ≠
          Except.ok [("messages", StateVal.msgs [aiMsgTwoTools])] :=
  ⟨rfl, fun h => Except.noConfusion h⟩

/-- C6 (amended): each chatbot node forwards the entire message history of
the state to the bound model and returns exactly the single reply under the
`"messages"` key; it reads no state field other than `messages` and writes
no other field.  Part 2's node does so for every state; part 5's node does
so whenever the reply carries at most one tool call — otherwise its
assertion (claim C9) raises instead of returning. -/
theorem chatbot_forwards_history (llm : List Message → Message) :
    (∀ s : Part2.State, Part2.chatbot llm s = [("messages", StateVal.msgs [llm s.messages])])
    ∧ (∀ s s2 : Part5.State, s.messages = s2.messages →
        Part5.chatbot llm s = Part5.chatbot llm s2)
    ∧ (∀ (s : Part5.State) (tcs : List ToolCall), (llm s.messages).tool_calls = some tcs →
        tcs.length ≤ 1 →
        Part5.chatbot llm s = Except.ok [("messages", StateVal.msgs [llm s.messages])]) := by
  refine ⟨fun _ => rfl, ?_, ?_⟩
  · intro s s2 hmsg
    unfold Part5.chatbot
    rw [hmsg]
  · intro s tcs htc hlen
    unfold Part5.chatbot
    dsimp only
    rw [htc]
    dsimp only
    rw [if_pos hlen]

/-- Witness for C6: the part-5 chatbot at a concrete state and model returns
the single-reply update. -/
theorem chatbot_forwards_history_witness :
    Part5.chatbot (fun _ => aiMsgNoTool) ⟨[], "LangGraph", "Jan 17, 2024"⟩ =
      Except.ok [("messages", StateVal.msgs [aiMsgNoTool])] :=
  (chatbot_forwards_history (fun _ => aiMsgNoTool)).2.2 ⟨[], "LangGraph", "Jan 17, 2024"⟩ []
    rfl (by decide)

/-- C5: on resume, `human_assistance` either accepts the proposed values
as-is (payload confirms, i.e. its `"correct"` entry lowercased starts with
`"y"`) with message `"Correct"`, or overwrites them with the payload's
`"name"`/`"birthday"` entries (defaulting to the proposed values) with a
message recording the correction; in both cases the appended `ToolMessage`
carries the injected tool-call id. -/
theorem human_assistance_resume (name birthday tool_call_id : String)
    (resp : Part5.HumanResponse) :
    (pyStartsWith (pyLower (Part5.pyGet resp "correct" "")) "y" →
      Part5.human_assistance name birthday tool_call_id resp =
        { update := [("name", StateVal.str name), ("birthday", StateVal.str birthday),
                     ("messages", StateVal.msgs [ToolMessage "Correct" tool_call_id none])] })
    ∧ (¬ pyStartsWith (pyLower (Part5.pyGet resp "correct" "")) "y" →
      Part5.human_assistance name birthday tool_call_id resp =
        { update := [("name", StateVal.str (Part5.pyGet resp "name" name)),
                     ("birthday", StateVal.str (Part5.pyGet resp "birthday" birthday)),
                     ("messages", StateVal.msgs [ToolMessage
                       ("Made a correction: " ++ Part5.reprHumanResponse resp)
                       tool_call_id none])] }) := by
  constructor
  · intro h
    simp only [Part5.human_assistance, h, if_pos]
  · intro h
    simp only [Bool.not_eq_true] at h
    simp only [Part5.human_assistance, h, Bool.false_eq_true, if_neg, if_false]

/-- Witness for C5: a confirming payload keeps the proposed values. -/
theorem human_assistance_resume_witness :
    Part5.human_assistance "LangGraph" "Jan 17, 2024" "call_1" [("correct", "yes")] =
      { update := [("name", StateVal.str "LangGraph"),
                   ("birthday", StateVal.str "Jan 17, 2024"),
                   ("messages", StateVal.msgs [ToolMessage "Correct" "call_1" none])] } :=
  (human_assistance_resume "LangGraph" "Jan 17, 2024" "call_1" [("correct", "yes")]).1
    (by decide)

/-- C10: the `Command` returned by `human_assistance` updates exactly the
keys `name`, `birthday` and `messages`; merging it into any state leaves
every other key untouched. -/
theorem human_assistance_frame (name birthday tool_call_id : String)
    (resp : Part5.HumanResponse) :
    ((Part5.human_assistance name birthday tool_call_id resp).update.map Prod.fst =
      ["name", "birthday", "messages"])
    ∧ (∀ (s : Dict) (k : String), k ∉ (["name", "birthday", "messages"] : List String) →
        dictGet (applyUpdate s (Part5.human_assistance name birthday tool_call_id resp).update) k =
          dictGet s k) := by
  have hkeys : (Part5.human_assistance name birthday tool_call_id resp).update.map Prod.fst =
      ["name", "birthday", "messages"] := rfl
  refine ⟨hkeys, ?_⟩
  intro s k hk
  apply applyUpdate_frame
  intro kv hkv
  intro heq
  apply hk
  rw [← heq, ← hkeys]
  exact List.mem_map_of_mem Prod.fst hkv

/-- Witness for C10: a key outside the update is unchanged by the merge. -/
theorem human_assistance_frame_witness :
    dictGet (applyUpdate [("thread_id", StateVal.str "1")]
        (Part5.human_assistance "a" "b" "c" []).update) "thread_id" =
      dictGet [("thread_id", StateVal.str "1")] "thread_id" :=
  (human_assistance_frame "a" "b" "c" []).2 [("thread_id", StateVal.str "1")] "thread_id"
    (by decide)

/-- Merging a single-key `{"messages": new}` update appends `new` to the
existing history through the `add_messages` reducer. -/
theorem applyUpdate_messages (s : Dict) (old new : List Message)
    (hs : dictGet s "messages" = some (StateVal.msgs old)) :
    dictGet (applyUpdate s [("messages", StateVal.msgs new)]) "messages" =
      some (StateVal.msgs (add_messages old new)) := by
  unfold applyUpdate
  simp only [List.foldl_cons, List.foldl_nil]
  rw [dictGet_set_self]
  simp [hs]

/-- Merging the three-key update of `human_assistance` appends its messages
to the existing history through the `add_messages` reducer. -/
theorem applyUpdate_messages3 (s : Dict) (old new : List Message) (v1 v2 : StateVal)
    (hs : dictGet s "messages" = some (StateVal.msgs old)) :
    dictGet (applyUpdate s
        [("name", v1), ("birthday", v2), ("messages", StateVal.msgs new)]) "messages" =
      some (StateVal.msgs (add_messages old new)) := by
  unfold applyUpdate
  simp only [List.foldl_cons, List.foldl_nil]
  rw [dictGet_set_self]
  have h2 : dictGet (dictSet (dictSet s "name"
      (if ("name" : String) = "messages" then
        match dictGet s "name", v1 with
        | some (StateVal.msgs old), StateVal.msgs new => StateVal.msgs (add_messages old new)
        | _, _ => v1
      else v1)) "birthday"
      (if ("birthday" : String) = "messages" then
        match dictGet (dictSet s "name"
          (if ("name" : String) = "messages" then
            match dictGet s "name", v1 with
            | some (StateVal.msgs old), StateVal.msgs new => StateVal.msgs (add_messages old new)
            | _, _ => v1
          else v1)) "birthday", v2 with
        | some (StateVal.msgs old), StateVal.msgs new => StateVal.msgs (add_messages old new)
        | _, _ => v2
      else v2)) "messages" = some (StateVal.msgs old) := by
    rw [dictGet_set_other _ _ _ _ (by decide), dictGet_set_other _ _ _ _ (by decide)]
    exact hs
  rw [h2]
  simp

/-- The update dict of `human_assistance` always has the shape
`{"name": _, "birthday": _, "messages": [single ToolMessage]}`. -/
theorem human_assistance_update_shape (nm bd cid : String) (resp : Part5.HumanResponse) :
    ∃ v1 v2 msg, (Part5.human_assistance nm bd cid resp).update =
      [("name", v1), ("birthday", v2), ("messages", StateVal.msgs [msg])] := by
  unfold Part5.human_assistance
  exact ⟨_, _, _, rfl⟩

/-- C7: every node defined in the notebooks returns only new messages, so
merging its update through the (spec-modelled) `add_messages` reducer makes
the previous message history a prefix of the new one — no message is removed
or reordered. -/
theorem history_append_only (s : Dict) (old : List Message)
    (hs : dictGet s "messages" = some (StateVal.msgs old)) :
    (∀ (llm : List Message → Message) (st : Part2.State),
      dictGet (applyUpdate s (Part2.chatbot llm st)) "messages" =
          some (StateVal.msgs (add_messages old [llm st.messages]))
        ∧ old <+: add_messages old [llm st.messages])
    ∧ (∀ (tools : List Tool) (inputs : Part2.ToolInputs) (outs : List Message),
        (Part2.BasicToolNode.ofTools tools).call inputs =
          Except.ok [("messages", StateVal.msgs outs)] →
        dictGet (applyUpdate s [("messages", StateVal.msgs outs)]) "messages" =
            some (StateVal.msgs (add_messages old outs))
          ∧ old <+: add_messages old outs)
    ∧ (∀ (llm : List Message → Message) (st : Part5.State) (outs : List Message),
        Part5.chatbot llm st = Except.ok [("messages", StateVal.msgs outs)] →
        dictGet (applyUpdate s [("messages", StateVal.msgs outs)]) "messages" =
            some (StateVal.msgs (add_messages old outs))
          ∧ old <+: add_messages old outs)
    ∧ (∀ (nm bd cid : String) (resp : Part5.HumanResponse) (outs : List Message),
        dictGet (Part5.human_assistance nm bd cid resp).update "messages" =
          some (StateVal.msgs outs) →
        dictGet (applyUpdate s (Part5.human_assistance nm bd cid resp).update) "messages" =
            some (StateVal.msgs (add_messages old outs))
          ∧ old <+: add_messages old outs) := by
  refine ⟨?_, ?_, ?_, ?_⟩
  · intro llm st
    exact ⟨applyUpdate_messages s old [llm st.messages] hs, [llm st.messages], rfl⟩
  · intro tools inputs outs _
    exact ⟨applyUpdate_messages s old outs hs, outs, rfl⟩
  · intro llm st outs _
    exact ⟨applyUpdate_messages s old outs hs, outs, rfl⟩
  · intro nm bd cid resp outs hout
    obtain ⟨v1, v2, msg, hupd⟩ := human_assistance_update_shape nm bd cid resp
    rw [hupd] at hout ⊢
    have hmsg : some (StateVal.msgs [msg]) = some (StateVal.msgs outs) := hout
    obtain rfl : [msg] = outs := by
      cases hmsg
      rfl
    exact ⟨applyUpdate_messages3 s old [msg] v1 v2 hs, [msg], rfl⟩

/-- Witness for C7 at a concrete state with an empty history and the
concrete part-2 chatbot step. -/
theorem history_append_only_witness :
    dictGet (applyUpdate [("messages", StateVal.msgs [])]
        (Part2.chatbot (fun _ => aiMsgNoTool) ⟨[]⟩)) "messages" =
        some (StateVal.msgs (add_messages [] [aiMsgNoTool]))
      ∧ [] <+: add_messages [] [aiMsgNoTool] :=
  (history_append_only [("messages", StateVal.msgs [])] [] rfl).1 (fun _ => aiMsgNoTool) ⟨[]⟩

/-- Counterexample to C3: `route_tools` — a second piece of repository code,
distinct from `BasicToolNode` — raises its own explicit `ValueError`, and its
message differs from the `"No message found in input"` guard. -/
theorem route_tools_own_raise_counterexample :
    Part2.route_tools (Part2.RouteArg.stateArg ⟨[]⟩) =
        Except.error (PyError.valueError
          ("No messages found in input state to tool_edge: " ++ Part2.stateRepr ⟨[]⟩))
      ∧ ("No messages found in input state to tool_edge: " ++ Part2.stateRepr ⟨[]⟩) ≠
          "No message found in input" := by
  exact ⟨rfl, by decide⟩

/-- C3 (amended): the notebooks raise explicit errors at three sites, not
one — `BasicToolNode`'s guard `ValueError`, `route_tools`' own guard
`ValueError`, and the `assert` in part 5's `chatbot`; every other failure of
`BasicToolNode.__call__` is a builtin lookup error propagating uncaught. -/
theorem explicit_raises_enumerated :
    (∀ s : Part2.State,
      (∃ e, Part2.route_tools (Part2.RouteArg.stateArg s) =
          Except.error (PyError.valueError e)) ↔ s.messages = [])
    ∧ (∀ (tools : List Tool) (inputs : Part2.ToolInputs),
        (Part2.BasicToolNode.ofTools tools).call inputs =
            Except.error (PyError.valueError "No message found in input")
          ↔ inputs.messages.getD [] = [])
    ∧ (∀ (llm : List Message → Message) (s : Part5.State),
        Part5.chatbot llm s = Except.error PyError.assertionError ↔
          ∃ tcs, (llm s.messages).tool_calls = some tcs ∧ 2 ≤ tcs.length)
    ∧ (∀ (tools : List Tool) (inputs : Part2.ToolInputs) (e : PyError),
        (Part2.BasicToolNode.ofTools tools).call inputs = Except.error e →
          e = PyError.valueError "No message found in input" ∨
          (∃ k, e = PyError.keyError k) ∨ (∃ a, e = PyError.attributeError a)) := by
  refine ⟨?_, fun tools inputs => call_guard_iff_aux tools inputs,
    fun llm s => chatbot5_assert_iff_aux llm s, ?_⟩
  · intro s
    constructor
    · rintro ⟨e, he⟩
      cases hl : s.messages.getLast? with
      | none => exact List.getLast?_eq_none_iff.mp hl
      | some m =>
        exfalso
        have hred : Part2.route_tools (Part2.RouteArg.stateArg s) =
            (match m.tool_calls with
             | some tcs => if 0 < tcs.length then Except.ok "tools" else Except.ok END
             | none => Except.ok END) := by
          simp [Part2.route_tools, hl, bind, Except.bind, pure, Except.pure]
        rw [hred] at he
        cases htc : m.tool_calls with
        | none =>
          rw [htc] at he
          exact Except.noConfusion he
        | some tcs =>
          rw [htc] at he
          dsimp only at he
          by_cases h0 : 0 < tcs.length
          · rw [if_pos h0] at he
            exact Except.noConfusion he
          · rw [if_neg h0] at he
            exact Except.noConfusion he
    · intro h
      refine ⟨"No messages found in input state to tool_edge: " ++ Part2.stateRepr s, ?_⟩
      have hl : s.messages.getLast? = none := by rw [h]; rfl
      simp [Part2.route_tools, hl, bind, Except.bind]
  · intro tools inputs e h
    unfold Part2.BasicToolNode.call at h
    cases hl : (inputs.messages.getD []).getLast? with
    | none =>
      rw [hl] at h
      exact Or.inl (Except.error.inj h).symm
    | some m =>
      rw [hl] at h
      dsimp only at h
      cases htc : m.tool_calls with
      | none =>
        rw [htc] at h
        exact Or.inr (Or.inr ⟨"tool_calls", (Except.error.inj h).symm⟩)
      | some tcs =>
        rw [htc] at h
        dsimp only at h
        cases hr : (Part2.BasicToolNode.ofTools tools).runTools tcs with
        | ok outputs =>
          rw [hr] at h
          exact absurd h (by simp)
        | error e2 =>
          rw [hr] at h
          obtain rfl := Except.error.inj h
          obtain ⟨k, hk⟩ := runTools_error_keyError _ _ _ hr
          exact Or.inr (Or.inl ⟨k, hk⟩)

/-- Witness for the amended C3: the guard of `BasicToolNode` fires on an
input whose messages entry is present but empty. -/
theorem explicit_raises_enumerated_witness :
    (Part2.BasicToolNode.ofTools []).call ⟨some []⟩ =
      Except.error (PyError.valueError "No message found in input") :=
  (explicit_raises_enumerated.2.1 [] ⟨some []⟩).mpr rfl

/-- C8: a loop iteration prints `"Goodbye!"` and terminates exactly when the
line read, lowercased, equals one of the sentinels `"quit"`, `"exit"`, `"q"`;
for every other line it streams the graph's response for that line and
continues. -/
theorem console_loop_sentinels (graph_stream : String → List (List Message)) (line : String) :
    (Part2.loop_iteration graph_stream (Except.ok line) = Except.ok (["Goodbye!"], true)
      ↔ pyLower line ∈ (["quit", "exit", "q"] : List String))
    ∧ (∀ prints, pyLower line ∉ (["quit", "exit", "q"] : List String) →
        Part2.stream_graph_updates graph_stream line = Except.ok prints →
        Part2.loop_iteration graph_stream (Except.ok line) = Except.ok (prints, false)) := by
  by_cases hs : pyLower line ∈ (["quit", "exit", "q"] : List String)
  · have hred : Part2.loop_iteration graph_stream (Except.ok line) =
        Except.ok (["Goodbye!"], true) := by
      simp [Part2.loop_iteration, hs, bind, Except.bind, pure, Except.pure]
    exact ⟨⟨fun _ => hs, fun _ => hred⟩, fun prints hns _ => absurd hs hns⟩
  · cases hstr : Part2.stream_graph_updates graph_stream line with
    | ok ps =>
      have hred : Part2.loop_iteration graph_stream (Except.ok line) =
          Except.ok (ps, false) := by
        simp [Part2.loop_iteration, hs, hstr, bind, Except.bind, pure, Except.pure]
      refine ⟨⟨?_, fun hmem => absurd hmem hs⟩, ?_⟩
      · intro hgb
        rw [hred] at hgb
        have h2 := congrArg Prod.snd (Except.ok.inj hgb)
        exact absurd h2 (by simp)
      · intro prints hns hpr
        cases Except.ok.inj hpr
        exact hred
    | error e =>
      cases hfb : Part2.stream_graph_updates graph_stream
          "What do you know about LangGraph?" with
      | ok ps2 =>
        have hred : Part2.loop_iteration graph_stream (Except.ok line) =
            Except.ok (("User: " ++ "What do you know about LangGraph?") :: ps2, true) := by
          simp [Part2.loop_iteration, hs, hstr, hfb, bind, Except.bind, pure, Except.pure]
        refine ⟨⟨?_, fun hmem => absurd hmem hs⟩, ?_⟩
        · intro hgb
          rw [hred] at hgb
          have hlist := congrArg Prod.fst (Except.ok.inj hgb)
          have hhead := (List.cons.inj hlist).1
          exact absurd hhead (by decide)
        · intro prints hns hpr
          exact Except.noConfusion hpr
      | error e2 =>
        have hred : Part2.loop_iteration graph_stream (Except.ok line) =
            Except.error e2 := by
          simp [Part2.loop_iteration, hs, hstr, hfb, bind, Except.bind, pure, Except.pure]
        refine ⟨⟨?_, fun hmem => absurd hmem hs⟩, ?_⟩
        · intro hgb
          rw [hred] at hgb
          exact Except.noConfusion hgb
        · intro prints hns hpr
          exact Except.noConfusion hpr

/-- Witness for C8: the sentinel `"QUIT"` (case-insensitively) ends the loop
with the goodbye message. -/
theorem console_loop_sentinels_witness :
    Part2.loop_iteration (fun _ => []) (Except.ok "QUIT") = Except.ok (["Goodbye!"], true) :=
  (console_loop_sentinels (fun _ => []) "QUIT").1.mpr (by decide)
